import Mathlib

/-!
Shallow embedding of the corridor-grid simulation kernels.

Part A embeds the special-state corridor family
(src/corridor_grid/envs/base_ss_corridor.py and circular_ss_corridor.py):
configuration validation, action normalisation, the step/reset dynamics for
the linear and circular geometries, and the ansi text renderer.

Part B embeds the door-corridor grid kernel
(src/corridor_grid/envs/door_corridor.py): grid generation, the four actions,
and the egocentric field-of-view extraction with rotation and occlusion.

Machine integers are modelled as Int (Python ints are unbounded); numpy's
uint8 grid cells only ever hold enum values written by the code, so cells are
modelled by the corresponding closed enums.
-/

namespace CorridorGrid

/-- Errors surfaced by the kernels: assertion failures at construction
(configuration errors) and invalid actions at step time. -/
inductive Err where
  | configError (msg : String)
  | invalidAction (msg : String)
deriving DecidableEq, Repr

/-- An action given to the corridor kernel step: a one-letter string token or
an integer index (int and np.int64 behave identically). -/
inductive SSActionInput where
  | str (s : String)
  | num (n : Int)
deriving DecidableEq, Repr

/-- BaseSpecialStateCorridorEnv.ACTION. -/
def ACTION : List String := ["L", "R"]

/-- _get_action_str: validate and normalise an action to its string token. -/
def getActionStr : SSActionInput → Except Err String
  | .str s => if s ∈ ACTION then .ok s else .error (.invalidAction "Invalid action")
  | .num n =>
      if 0 ≤ n ∧ n < 2 then .ok (if n = 0 then "L" else "R")
      else .error (.invalidAction "Invalid action index")

/-- Membership in the declared action space of the corridor kernel:
the two-element discrete space, with one-letter tokens also accepted. -/
def ssActionMem : SSActionInput → Prop
  | .str s => s ∈ ACTION
  | .num n => 0 ≤ n ∧ n < 2

instance : DecidablePred ssActionMem := by
  intro a
  cases a <;> simp only [ssActionMem] <;> infer_instance

/-- SpecialStateCorridorEnvCustomisationConfig (field values after the
defaults of from_dict have been applied). -/
structure SSCorridorCfg where
  corridorLength : Int
  startState : Option Int
  goalState : Int
  specialStates : List Int
  truncateTolerance : Int
deriving DecidableEq, Repr

/-- The assertion chain of
SpecialStateCorridorEnvCustomisationConfig.from_dict, in source order. -/
def fromDictValidate (cfg : SSCorridorCfg) : Except Err SSCorridorCfg :=
  if ¬ 2 ≤ cfg.corridorLength then
    .error (.configError "Corridor length must be at least 2 (a start and a goal)")
  else if ¬ (∀ s ∈ cfg.startState, 0 ≤ s) then
    .error (.configError "Start state must be non-negative")
  else if ¬ (∀ s ∈ cfg.startState, s < cfg.corridorLength) then
    .error (.configError "Start state must be within the corridor")
  else if ¬ 0 ≤ cfg.goalState then
    .error (.configError "Goal state must be non-negative")
  else if ¬ cfg.goalState < cfg.corridorLength then
    .error (.configError "Goal state must be within the corridor")
  else if cfg.startState = some cfg.goalState then
    .error (.configError "Goal state must be different from start state")
  else if ¬ (∀ s ∈ cfg.specialStates, 0 ≤ s ∧ s < cfg.corridorLength) then
    .error (.configError "Special state must be within the corridor")
  else if ¬ 0 < cfg.truncateTolerance then
    .error (.configError "Truncate tolerance must be positive")
  else .ok cfg

/-- Mutable state of a corridor kernel instance. -/
structure SSState where
  agentLocation : Int
  currStartState : Int
  stepCounter : Int
deriving DecidableEq, Repr

/-- _convert_action_to_movement: at a special position the nominal mapping is
inverted (L gives +1, R gives -1); otherwise L gives -1, R gives +1. -/
def convertActionToMovement (cfg : SSCorridorCfg) (loc : Int) (a : SSActionInput) :
    Except Err Int := do
  let s ← getActionStr a
  if loc ∈ cfg.specialStates then
    pure (if s = "L" then 1 else -1)
  else
    pure (if s = "L" then -1 else 1)

/-- The two position geometries: the base (linear) corridor and the circular
subclass. -/
inductive Geometry where
  | linear
  | circular
deriving DecidableEq, Repr

/-- The position arithmetic of _get_agent_new_location: the base class clamps
to [0, length-1], the circular override takes the result modulo length
(Python % on a positive modulus agrees with Int.emod). -/
def geometryMove (g : Geometry) (cfg : SSCorridorCfg) (p : Int) : Int :=
  match g with
  | .linear => max 0 (min p (cfg.corridorLength - 1))
  | .circular => p % cfg.corridorLength

/-- _get_agent_new_location for either geometry. -/
def getAgentNewLocation (g : Geometry) (cfg : SSCorridorCfg) (loc : Int)
    (a : SSActionInput) : Except Err Int := do
  let m ← convertActionToMovement cfg loc a
  pure (geometryMove g cfg (loc + m))

/-- Wall sensor of _get_agent_observation: the base class reports a left wall
at 0, else a right wall at length-1; the circular override always reports
no wall. -/
def wallStatus (g : Geometry) (cfg : SSCorridorCfg) (loc : Int) : Int × Int :=
  match g with
  | .linear =>
      if loc = 0 then (1, 0)
      else if loc = cfg.corridorLength - 1 then (0, 1)
      else (0, 0)
  | .circular => (0, 0)

/-- _get_distance_to_goal: absolute distance for the base class, shorter arc
for the circular override. -/
def getDistanceToGoal (g : Geometry) (cfg : SSCorridorCfg) (loc : Int) : Int :=
  match g with
  | .linear => |loc - cfg.goalState|
  | .circular =>
      min |loc - cfg.goalState| (cfg.corridorLength - |loc - cfg.goalState|)

/-- Everything a corridor step call returns besides the new state. -/
structure SSOut where
  actionStr : String
  reward : Int
  terminated : Bool
  truncated : Bool
  wallStatus : Int × Int
  obsAgentLocation : Int
  distanceToGoal : Int
deriving DecidableEq, Repr

/-- BaseSpecialStateCorridorEnv.step (shared by the circular subclass, which
only overrides the geometry helpers). The new location is computed first; a
failed action validation aborts before any assignment. -/
def ssStep (g : Geometry) (cfg : SSCorridorCfg) (st : SSState) (a : SSActionInput) :
    Except Err (SSState × SSOut) := do
  let newLoc ← getAgentNewLocation g cfg st.agentLocation a
  let actionStr ← getActionStr a
  let st2 : SSState := ⟨newLoc, st.currStartState, st.stepCounter + 1⟩
  .ok (st2,
    { actionStr := actionStr
      reward := -1
      terminated := decide (newLoc = cfg.goalState)
      truncated := decide (cfg.truncateTolerance ≤ st2.stepCounter)
      wallStatus := wallStatus g cfg newLoc
      obsAgentLocation := newLoc
      distanceToGoal := getDistanceToGoal g cfg newLoc })

/-- A step call as seen by the caller: on an invalid action the exception
propagates and the environment object is left unchanged. -/
def ssStepRun (g : Geometry) (cfg : SSCorridorCfg) (st : SSState) (a : SSActionInput) :
    SSState × Except Err SSOut :=
  match ssStep g cfg st a with
  | .ok (st2, out) => (st2, .ok out)
  | .error e => (st, .error e)

/-- BaseSpecialStateCorridorEnv.reset. When start_state is None the position
is drawn by np.random.choice(corridor_length), which reads numpy's GLOBAL
generator, modelled by npGlobalDraw (the draw is npGlobalDraw mod length).
The seed argument is only forwarded to gym.Env.reset, which seeds the
environment's own np_random attribute; that attribute is never read by this
code, so the seed has no effect on the draw. -/
def ssReset (cfg : SSCorridorCfg) (_seed : Option Nat) (npGlobalDraw : Nat) : SSState :=
  let loc : Int :=
    match cfg.startState with
    | some s => s
    | none => (npGlobalDraw : Int) % cfg.corridorLength
  ⟨loc, loc, 0⟩

/-- Fold a list of step calls from a state, keeping the state unchanged on a
failed call. -/
def ssRunSteps (g : Geometry) (cfg : SSCorridorCfg) (st : SSState)
    (acts : List SSActionInput) : SSState :=
  acts.foldl (fun s a => (ssStepRun g cfg s a).1) st

/-- The cell list built by _render_frame_ansi_mode, in assignment order:
blanks, then S at the episode start, G at the goal, a caret at every special
position, and the agent star last. -/
def renderAnsiCells (cfg : SSCorridorCfg) (st : SSState) : List Char :=
  let base := List.replicate cfg.corridorLength.toNat ' '
  let base := base.set st.currStartState.toNat 'S'
  let base := base.set cfg.goalState.toNat 'G'
  let base := cfg.specialStates.foldl (fun b s => b.set s.toNat '^') base
  base.set st.agentLocation.toNat '*'

/-- _render_frame_ansi_mode: the cells joined by a bar and wrapped in
brackets. -/
def renderFrameAnsiMode (cfg : SSCorridorCfg) (st : SSState) : String :=
  "[" ++ String.intercalate "|" ((renderAnsiCells cfg st).map (fun c => String.mk [c])) ++ "]"

/-! ## Part B: the door-corridor grid kernel -/

/-- DoorCorridorAction (LEFT=0, RIGHT=1, FORWARD=2, TOGGLE=3); step takes a
raw integer, so actions are passed as Int and validated against these four
values. -/
def doorCorridorActionValues : List Int := [0, 1, 2, 3]

/-- AgentDirection. -/
inductive AgentDirection where
  | right
  | down
  | left
  | up
deriving DecidableEq, Repr

/-- The ordinal of an AgentDirection (RIGHT=0, DOWN=1, LEFT=2, UP=3). -/
def AgentDirection.idx : AgentDirection → Nat
  | .right => 0
  | .down => 1
  | .left => 2
  | .up => 3

/-- The direction with the given ordinal modulo 4. -/
def AgentDirection.ofIdx (n : Nat) : AgentDirection :=
  match n % 4 with
  | 0 => .right
  | 1 => .down
  | 2 => .left
  | _ => .up

/-- AgentDirection.turn_left: (self - 1) % 4 (Python % is nonnegative). -/
def AgentDirection.turnLeft (d : AgentDirection) : AgentDirection :=
  AgentDirection.ofIdx (d.idx + 3)

/-- AgentDirection.turn_right: (self + 1) % 4. -/
def AgentDirection.turnRight (d : AgentDirection) : AgentDirection :=
  AgentDirection.ofIdx (d.idx + 1)

/-- Object: the object-kind channel of a grid cell. -/
inductive Object where
  | unseen
  | empty
  | wall
  | door
  | agent
  | goal
deriving DecidableEq, Repr

/-- State: the door-state channel of a grid cell (OPEN=0, CLOSED=1). -/
inductive DoorState where
  | opened
  | closed
deriving DecidableEq, Repr

/-- State.toggle: (self + 1) % 2. -/
def DoorState.toggle : DoorState → DoorState
  | .opened => .closed
  | .closed => .opened

/-- One grid cell: the pair stored in the last axis of the numpy grid array
(object kind, door state). -/
structure Cell where
  obj : Object
  st : DoorState
deriving DecidableEq, Repr

/-- The value an out-of-view or occluded pov cell holds: both channels are
written 0, i.e. Object.UNSEEN and State.OPEN. -/
def unseenCell : Cell := ⟨.unseen, .opened⟩

/-- DoorCorridorEnv configuration fields (constructor arguments). -/
structure DCCfg where
  maxSteps : Int
  corridorLength : Nat
  agentViewSize : Nat
deriving DecidableEq, Repr

/-- grid_width = corridor_length + 2. -/
def DCCfg.gridWidth (cfg : DCCfg) : Int := (cfg.corridorLength : Int) + 2

/-- grid_height = 3. -/
def DCCfg.gridHeight (_cfg : DCCfg) : Int := 3

/-- start_pos = (1, 1). -/
def DCCfg.startPos (_cfg : DCCfg) : Int × Int := (1, 1)

/-- goal_pos = (grid_width - 2, 1). -/
def DCCfg.goalPos (cfg : DCCfg) : Int × Int := (cfg.gridWidth - 2, 1)

/-- DoorCorridorEnv.__init__: the only configuration assertions are that the
agent view size is odd and at least 3; corridor length and max_steps are
accepted unchecked. -/
def mkDoorCorridorEnv (maxSteps : Int) (corridorLength : Nat) (agentViewSize : Nat) :
    Except Err DCCfg :=
  if ¬ agentViewSize % 2 = 1 then
    .error (.configError "agent_view_size must be odd")
  else if ¬ 3 ≤ agentViewSize then
    .error (.configError "agent_view_size must be at least 3")
  else .ok ⟨maxSteps, corridorLength, agentViewSize⟩

/-- _gen_grid, as a function from (x, y) to the cell the generation sequence
leaves there: empty fill, walls on the border, a closed door across row 1 at
columns 2..width-3, then the agent stamp at start_pos and the goal stamp at
goal_pos (the later assignments win, and the start/goal stamps only touch the
object channel, whose prior door-state there is OPEN). -/
def genGrid (cfg : DCCfg) (x y : Int) : Cell :=
  if (x, y) = cfg.goalPos then ⟨.goal, .opened⟩
  else if (x, y) = cfg.startPos then ⟨.agent, .opened⟩
  else if y = 1 ∧ 2 ≤ x ∧ x < cfg.gridWidth - 2 then ⟨.door, .closed⟩
  else if x = 0 ∨ x = cfg.gridWidth - 1 ∨ y = 0 ∨ y = cfg.gridHeight - 1 then ⟨.wall, .opened⟩
  else ⟨.empty, .opened⟩

/-- Mutable state of a DoorCorridorEnv instance. The grid is a total
function; every read in the embedded code is guarded by the bounds check
_with_grid. -/
structure DCState where
  grid : Int → Int → Cell
  agentPos : Int × Int
  agentDir : AgentDirection
  stepCount : Int

/-- _with_grid. -/
def withGrid (cfg : DCCfg) (x y : Int) : Bool :=
  decide (0 ≤ x ∧ x < cfg.gridWidth ∧ 0 ≤ y ∧ y < cfg.gridHeight)

/-- _in_front_of_agent_coord, from an arbitrary position and direction. -/
def inFrontOfAgentCoord (pos : Int × Int) (d : AgentDirection) : Int × Int :=
  match d with
  | .right => (pos.1 + 1, pos.2)
  | .down => (pos.1, pos.2 + 1)
  | .left => (pos.1 - 1, pos.2)
  | .up => (pos.1, pos.2 - 1)

/-- _get_view_exts: the top-left grid coordinate of the view window. -/
def getViewExts (cfg : DCCfg) (s : DCState) : Int × Int :=
  let n : Int := cfg.agentViewSize
  let half : Int := cfg.agentViewSize / 2
  match s.agentDir with
  | .right => (s.agentPos.1, s.agentPos.2 - half)
  | .down => (s.agentPos.1 - half, s.agentPos.2)
  | .left => (s.agentPos.1 - n + 1, s.agentPos.2 - half)
  | .up => (s.agentPos.1 - half, s.agentPos.2 - n + 1)

/-- The view window before rotation: pov row j, column i holds the grid cell
at (top_x + i, top_y + j), or the unseen cell out of bounds. -/
def windowPov (cfg : DCCfg) (s : DCState) : Nat → Nat → Cell := fun j i =>
  let t := getViewExts cfg s
  let x := t.1 + i
  let y := t.2 + j
  if withGrid cfg x y then s.grid x y else unseenCell

/-- One counter-clockwise quarter turn of an n-by-n matrix (np.rot90 with
k = 1): result row r, column c is the input at row c, column n-1-r. -/
def rot90 (n : Nat) (f : Nat → Nat → Cell) : Nat → Nat → Cell :=
  fun r c => f c (n - 1 - r)

/-- np.rot90 with k quarter turns. -/
def rot90Pow (n : Nat) : Nat → (Nat → Nat → Cell) → (Nat → Nat → Cell)
  | 0, f => f
  | k + 1, f => rot90 n (rot90Pow n k f)

/-- The rotated view of _get_agent_pov before the occlusion pass: rotated by
direction-index + 1 quarter turns unless the agent faces up, in which case it
is left as is. -/
def getAgentPovPre (cfg : DCCfg) (s : DCState) : Nat → Nat → Cell :=
  if s.agentDir = .up then windowPov cfg s
  else rot90Pow cfg.agentViewSize (s.agentDir.idx + 1) (windowPov cfg s)

/-- The scan order of the occlusion loop, range(n-2, 0, -1):
the rows n-2 down to 1. -/
def countdown : Nat → List Nat
  | 0 => []
  | y + 1 => (y + 1) :: countdown y

/-- The occlusion loop of _get_agent_pov: walking the given rows in order,
the first row whose centre-column cell is a closed door blanks every row
above it (both channels written 0) and stops the scan. -/
def occludeLoop (pov : Nat → Nat → Cell) (c : Nat) : List Nat → (Nat → Nat → Cell)
  | [] => pov
  | y :: ys =>
      if pov y c = ⟨.door, .closed⟩ then
        fun r i => if r < y then unseenCell else pov r i
      else occludeLoop pov c ys

/-- _get_agent_pov: the rotated window with the closed-door occlusion pass
applied down the centre column. -/
def getAgentPov (cfg : DCCfg) (s : DCState) : Nat → Nat → Cell :=
  occludeLoop (getAgentPovPre cfg s) (cfg.agentViewSize / 2)
    (countdown (cfg.agentViewSize - 2))

/-- Everything a door-corridor step call returns besides the new state. -/
structure DCOut where
  image : Nat → Nat → Cell
  direction : AgentDirection
  reward : Int
  terminated : Bool
  truncated : Bool

/-- DoorCorridorEnv.step. The action is validated first (the assert precedes
every mutation); then the counter is incremented, the action applied, and
the post-action pov returned. -/
def dcStep (cfg : DCCfg) (s : DCState) (a : Int) : Except Err (DCState × DCOut) :=
  if a = 0 ∨ a = 1 ∨ a = 2 ∨ a = 3 then
    let count := s.stepCount + 1
    let s2 : DCState :=
      if a = 0 then { s with agentDir := s.agentDir.turnLeft, stepCount := count }
      else if a = 1 then { s with agentDir := s.agentDir.turnRight, stepCount := count }
      else if a = 2 then
        let f := inFrontOfAgentCoord s.agentPos s.agentDir
        if withGrid cfg f.1 f.2 = true ∧ (s.grid f.1 f.2).st = .opened ∧
            ¬ (s.grid f.1 f.2).obj = .wall then
          { s with agentPos := f, stepCount := count }
        else { s with stepCount := count }
      else
        let f := inFrontOfAgentCoord s.agentPos s.agentDir
        if withGrid cfg f.1 f.2 = true ∧ (s.grid f.1 f.2).obj = .door then
          { s with
              grid := fun x y =>
                if x = f.1 ∧ y = f.2 then
                  ⟨(s.grid x y).obj, (s.grid x y).st.toggle⟩
                else s.grid x y,
              stepCount := count }
        else { s with stepCount := count }
    .ok (s2,
      { image := getAgentPov cfg s2
        direction := s2.agentDir
        reward := -1
        terminated := decide (s2.agentPos = cfg.goalPos)
        truncated := decide (cfg.maxSteps ≤ count) })
  else .error (.invalidAction "Invalid action")

/-- A door-corridor step call as seen by the caller: on an invalid action the
exception propagates and the environment object is left unchanged. -/
def dcStepRun (cfg : DCCfg) (s : DCState) (a : Int) : DCState × Except Err DCOut :=
  match dcStep cfg s a with
  | .ok (s2, out) => (s2, .ok out)
  | .error e => (s, .error e)

/-- DoorCorridorEnv.reset (also the tail of __init__): regenerate the grid,
place the agent at start facing up, zero the counter. -/
def dcReset (cfg : DCCfg) : DCState :=
  { grid := genGrid cfg
    agentPos := cfg.startPos
    agentDir := .up
    stepCount := 0 }

/-- Fold a list of door-corridor step calls from a state, keeping the state
unchanged on a failed call. -/
def dcRunSteps (cfg : DCCfg) (s : DCState) (acts : List Int) : DCState :=
  acts.foldl (fun s a => (dcStepRun cfg s a).1) s

/-- Run a list of step calls from the reset state. -/
def dcRunActions (cfg : DCCfg) (acts : List Int) : DCState :=
  dcRunSteps cfg (dcReset cfg) acts

/-- Modelled from the spec sentence behind claim C9 (for refinement
comparison only, not from the source): the agent cell renders a star with
top priority, then the recorded start cell renders S, the goal cell G, any
other special cell a caret, all remaining cells a space. -/
def claimCellChar (cfg : SSCorridorCfg) (st : SSState) (i : Nat) : Char :=
  if st.agentLocation = (i : Int) then '*'
  else if st.currStartState = (i : Int) then 'S'
  else if cfg.goalState = (i : Int) then 'G'
  else if (i : Int) ∈ cfg.specialStates then '^'
  else ' '

/-- The claimed render string built from claimCellChar. -/
def claimRenderAnsi (cfg : SSCorridorCfg) (st : SSState) : String :=
  "[" ++ String.intercalate "|"
    ((List.range cfg.corridorLength.toNat).map (fun i => String.mk [claimCellChar cfg st i])) ++ "]"

/-- The cell character the source actually produces, closed form: the agent
star wins, then a special-position caret, then the goal G, then the start S
(the assignment order of _render_frame_ansi_mode makes later marks win). -/
def amendedCellChar (cfg : SSCorridorCfg) (st : SSState) (i : Nat) : Char :=
  if st.agentLocation = (i : Int) then '*'
  else if (i : Int) ∈ cfg.specialStates then '^'
  else if cfg.goalState = (i : Int) then 'G'
  else if st.currStartState = (i : Int) then 'S'
  else ' '

/-! ## Helper lemmas and claim theorems -/

theorem fromDictValidate_isOk_iff (cfg : SSCorridorCfg) :
    (fromDictValidate cfg).isOk = true ↔
      (2 ≤ cfg.corridorLength ∧
       (∀ s ∈ cfg.startState, 0 ≤ s ∧ s < cfg.corridorLength) ∧
       0 ≤ cfg.goalState ∧ cfg.goalState < cfg.corridorLength ∧
       cfg.startState ≠ some cfg.goalState ∧
       (∀ s ∈ cfg.specialStates, 0 ≤ s ∧ s < cfg.corridorLength) ∧
       0 < cfg.truncateTolerance) := by
  unfold fromDictValidate
  repeat' split
  all_goals simp_all [Except.isOk, Except.toBool]
  intro hAll
  obtain ⟨x, hx, hxlt⟩ := ‹∃ x, cfg.startState = some x ∧ x < 0›
  exact absurd (hAll x hx).1 (by omega)

theorem mkDoorCorridorEnv_isOk_iff (ms : Int) (cl vs : Nat) :
    (mkDoorCorridorEnv ms cl vs).isOk = true ↔ (vs % 2 = 1 ∧ 3 ≤ vs) := by
  unfold mkDoorCorridorEnv
  repeat' split
  all_goals simp_all [Except.isOk, Except.toBool]

/-- The normalised token of a member of the corridor action space. -/
def ssActionTok : SSActionInput → String
  | .str s => s
  | .num n => if n = 0 then "L" else "R"

theorem getActionStr_ok_of_mem {a : SSActionInput} (h : ssActionMem a) :
    getActionStr a = .ok (ssActionTok a) := by
  cases a with
  | str s => simp_all [ssActionMem, getActionStr, ssActionTok]
  | num n => simp_all [ssActionMem, getActionStr, ssActionTok]

theorem getActionStr_error_of_not_mem {a : SSActionInput} (h : ¬ ssActionMem a) :
    ∃ m, getActionStr a = .error (.invalidAction m) := by
  cases a with
  | str s =>
      refine ⟨"Invalid action", ?_⟩
      simp only [ssActionMem] at h
      simp [getActionStr, h]
  | num n =>
      refine ⟨"Invalid action index", ?_⟩
      simp only [ssActionMem] at h
      simp [getActionStr, h]

theorem ssStepRun_invalid {g : Geometry} {cfg : SSCorridorCfg} {st : SSState}
    {a : SSActionInput} (h : ¬ ssActionMem a) :
    (ssStepRun g cfg st a).1 = st ∧
      ∃ m, (ssStepRun g cfg st a).2 = .error (.invalidAction m) := by
  obtain ⟨m, hm⟩ := getActionStr_error_of_not_mem h
  refine ⟨?_, m, ?_⟩ <;>
    simp [ssStepRun, ssStep, getAgentNewLocation, convertActionToMovement, hm, Bind.bind, Except.bind]

theorem dcStepRun_invalid {cfg : DCCfg} {s : DCState} {a : Int}
    (h : ¬ (a = 0 ∨ a = 1 ∨ a = 2 ∨ a = 3)) :
    (dcStepRun cfg s a).1 = s ∧
      (dcStepRun cfg s a).2 = .error (.invalidAction "Invalid action") := by
  constructor <;> simp [dcStepRun, dcStep, h]

/-- C4 (code_bug): with an unset start, the position drawn at reset follows
numpy's global stream, not the seed: on a valid configuration the same seed
with two different global-stream values yields two different start
positions. -/
theorem reset_random_start_follows_global_stream :
    (fromDictValidate ⟨2, none, 1, [], 50⟩).isOk = true ∧
    (ssReset ⟨2, none, 1, [], 50⟩ (some 0) 0).agentLocation = 0 ∧
    (ssReset ⟨2, none, 1, [], 50⟩ (some 0) 1).agentLocation = 1 := by
  decide

/-- C5 (confirmed): in both kernels a step call whose action is not a member
of the declared action space returns an InvalidAction error and leaves the
whole kernel state unchanged. -/
theorem step_invalid_action_is_atomic
    (g : Geometry) (cfg : SSCorridorCfg) (st : SSState) (a : SSActionInput)
    (hbad : ¬ ssActionMem a)
    (dcfg : DCCfg) (ds : DCState) (da : Int)
    (hdbad : ¬ (da = 0 ∨ da = 1 ∨ da = 2 ∨ da = 3)) :
    ((ssStepRun g cfg st a).1 = st ∧
      ∃ m, (ssStepRun g cfg st a).2 = .error (.invalidAction m)) ∧
    ((dcStepRun dcfg ds da).1 = ds ∧
      (dcStepRun dcfg ds da).2 = .error (.invalidAction "Invalid action")) :=
  ⟨ssStepRun_invalid hbad, dcStepRun_invalid hdbad⟩

/-- Witness for C5 at a concrete invalid action for each kernel. -/
theorem step_invalid_action_is_atomic_witness :
    ((ssStepRun .linear ⟨4, some 0, 3, [1], 50⟩ ⟨0, 0, 0⟩ (.num 5)).1 = ⟨0, 0, 0⟩ ∧
      ∃ m, (ssStepRun .linear ⟨4, some 0, 3, [1], 50⟩ ⟨0, 0, 0⟩ (.num 5)).2 =
        .error (.invalidAction m)) ∧
    ((dcStepRun ⟨270, 5, 3⟩ (dcReset ⟨270, 5, 3⟩) 9).1 = dcReset ⟨270, 5, 3⟩ ∧
      (dcStepRun ⟨270, 5, 3⟩ (dcReset ⟨270, 5, 3⟩) 9).2 =
        .error (.invalidAction "Invalid action")) :=
  step_invalid_action_is_atomic .linear ⟨4, some 0, 3, [1], 50⟩ ⟨0, 0, 0⟩ (.num 5)
    (by decide) ⟨270, 5, 3⟩ (dcReset ⟨270, 5, 3⟩) 9 (by decide)

/-- C6 counterexample: the grid kernel accepts a corridor length of 0
(below the minimum of 1) and a truncation limit of 0 (non-positive):
construction succeeds where the claim requires failure. -/
theorem door_corridor_construction_unchecked :
    (0 : Nat) < 1 ∧ ¬ (0 : Int) > 0 ∧ (mkDoorCorridorEnv 0 0 3).isOk = true := by
  decide

/-- C6 (corrected): the corridor kernel rejects at construction exactly the
listed bad configurations; the grid kernel validates only the view size
(corridor length and truncation limit are accepted unchecked); step in
either kernel only ever fails with InvalidAction, never a configuration
error, and reset is total. -/
theorem construction_validation_characterisation :
    (∀ cfg : SSCorridorCfg, (fromDictValidate cfg).isOk = true ↔
      (2 ≤ cfg.corridorLength ∧
       (∀ s ∈ cfg.startState, 0 ≤ s ∧ s < cfg.corridorLength) ∧
       0 ≤ cfg.goalState ∧ cfg.goalState < cfg.corridorLength ∧
       cfg.startState ≠ some cfg.goalState ∧
       (∀ s ∈ cfg.specialStates, 0 ≤ s ∧ s < cfg.corridorLength) ∧
       0 < cfg.truncateTolerance)) ∧
    (∀ (ms : Int) (cl vs : Nat),
      (mkDoorCorridorEnv ms cl vs).isOk = true ↔ (vs % 2 = 1 ∧ 3 ≤ vs)) ∧
    (∀ (g : Geometry) (cfg : SSCorridorCfg) (st : SSState) (a : SSActionInput) (e : Err),
      ssStep g cfg st a = .error e → ∃ m, e = .invalidAction m) ∧
    (∀ (dcfg : DCCfg) (ds : DCState) (a : Int) (e : Err),
      dcStep dcfg ds a = .error e → ∃ m, e = .invalidAction m) := by
  refine ⟨fromDictValidate_isOk_iff, mkDoorCorridorEnv_isOk_iff, ?_, ?_⟩
  · intro g cfg st a e herr
    by_cases hm : ssActionMem a
    · have hok := getActionStr_ok_of_mem hm
      by_cases hs : st.agentLocation ∈ cfg.specialStates <;>
        simp [ssStep, getAgentNewLocation, convertActionToMovement, hok, hs,
          Bind.bind, Except.bind, pure, Except.pure] at herr
    · obtain ⟨m, hm2⟩ := getActionStr_error_of_not_mem hm
      simp [ssStep, getAgentNewLocation, convertActionToMovement, hm2,
        Bind.bind, Except.bind] at herr
      exact ⟨m, herr.symm⟩
  · intro dcfg ds a e herr
    by_cases hv : a = 0 ∨ a = 1 ∨ a = 2 ∨ a = 3
    · simp [dcStep, hv] at herr
    · simp [dcStep, hv] at herr
      exact ⟨"Invalid action", herr.symm⟩

/-- Witness for C6 at concrete configurations and erroring steps. -/
theorem construction_validation_characterisation_witness :
    (fromDictValidate ⟨4, some 0, 3, [1], 50⟩).isOk = true ∧
    (mkDoorCorridorEnv 270 5 3).isOk = true ∧
    (∃ m, Err.invalidAction "Invalid action index" = Err.invalidAction m) ∧
    (∃ m, Err.invalidAction "Invalid action" = Err.invalidAction m) :=
  ⟨(construction_validation_characterisation.1 ⟨4, some 0, 3, [1], 50⟩).mpr (by decide),
   (construction_validation_characterisation.2.1 270 5 3).mpr (by decide),
   construction_validation_characterisation.2.2.1 .linear ⟨4, some 0, 3, [1], 50⟩
     ⟨0, 0, 0⟩ (.num 9) (.invalidAction "Invalid action index") rfl,
   construction_validation_characterisation.2.2.2 ⟨270, 5, 3⟩ (dcReset ⟨270, 5, 3⟩) 9
     (.invalidAction "Invalid action") rfl⟩

/-- C1 (confirmed): a valid step moves the agent from p to
geometryMove applied to p + delta, with delta inverted at special positions
(normal: L gives -1, R gives +1; special: L gives +1, R gives -1); the linear
geometry clamps to [0, length-1], the circular geometry reduces modulo
length, and with a validated configuration the agent position established by
reset and preserved by step always lies in [0, length). -/
theorem step_moves_agent_by_geometry
    (g : Geometry) (cfg : SSCorridorCfg) (st : SSState) (a : SSActionInput) (s : String)
    (hv : (fromDictValidate cfg).isOk = true)
    (hok : getActionStr a = .ok s)
    (_hlo : 0 ≤ st.agentLocation) (_hhi : st.agentLocation < cfg.corridorLength)
    (seed : Option Nat) (draw : Nat) :
    ((ssStepRun g cfg st a).2.isOk = true ∧
     (ssStepRun g cfg st a).1.agentLocation =
       geometryMove g cfg (st.agentLocation +
         (if st.agentLocation ∈ cfg.specialStates then (if s = "L" then 1 else -1)
          else (if s = "L" then -1 else 1))) ∧
     0 ≤ (ssStepRun g cfg st a).1.agentLocation ∧
     (ssStepRun g cfg st a).1.agentLocation < cfg.corridorLength) ∧
    (0 ≤ (ssReset cfg seed draw).agentLocation ∧
     (ssReset cfg seed draw).agentLocation < cfg.corridorLength) := by
  rw [fromDictValidate_isOk_iff] at hv
  obtain ⟨hlen, hstart, -, -, -, -, -⟩ := hv
  have hmove : ∀ p : Int, 0 ≤ geometryMove g cfg p ∧ geometryMove g cfg p < cfg.corridorLength := by
    intro p
    cases g with
    | linear =>
        refine ⟨le_max_left 0 _, ?_⟩
        simp only [geometryMove]
        exact max_lt (by omega) (lt_of_le_of_lt (min_le_right _ _) (by omega))
    | circular =>
        exact ⟨Int.emod_nonneg p (by omega), Int.emod_lt_of_pos p (by omega)⟩
  refine ⟨⟨?_, ?_, ?_, ?_⟩, ?_, ?_⟩
  · by_cases hs : st.agentLocation ∈ cfg.specialStates <;>
      simp [ssStepRun, ssStep, getAgentNewLocation, convertActionToMovement, hok, hs,
        Bind.bind, Except.bind, pure, Except.pure, Except.isOk, Except.toBool]
  · by_cases hs : st.agentLocation ∈ cfg.specialStates <;>
      simp [ssStepRun, ssStep, getAgentNewLocation, convertActionToMovement, hok, hs,
        Bind.bind, Except.bind, pure, Except.pure]
  · by_cases hs : st.agentLocation ∈ cfg.specialStates <;>
      simp [ssStepRun, ssStep, getAgentNewLocation, convertActionToMovement, hok, hs,
        Bind.bind, Except.bind, pure, Except.pure] <;>
      exact (hmove _).1
  · by_cases hs : st.agentLocation ∈ cfg.specialStates <;>
      simp [ssStepRun, ssStep, getAgentNewLocation, convertActionToMovement, hok, hs,
        Bind.bind, Except.bind, pure, Except.pure] <;>
      exact (hmove _).2
  · cases hcs : cfg.startState with
    | some s0 =>
        have := hstart s0 (by simp [hcs])
        simp [ssReset, hcs]
        omega
    | none =>
        simp only [ssReset, hcs]
        exact Int.emod_nonneg _ (by omega)
  · cases hcs : cfg.startState with
    | some s0 =>
        have := hstart s0 (by simp [hcs])
        simp [ssReset, hcs]
        omega
    | none =>
        simp only [ssReset, hcs]
        exact Int.emod_lt_of_pos _ (by omega)

/-- Witness for C1: the circular corridor of length 4, agent at 0, action L
(special states at 1): the new location is (0 - 1) mod 4 = 3. -/
theorem step_moves_agent_by_geometry_witness :
    ((ssStepRun .circular ⟨4, some 0, 3, [1], 50⟩ ⟨0, 0, 0⟩ (.str "L")).2.isOk = true ∧
     (ssStepRun .circular ⟨4, some 0, 3, [1], 50⟩ ⟨0, 0, 0⟩ (.str "L")).1.agentLocation =
       geometryMove .circular ⟨4, some 0, 3, [1], 50⟩ ((0 : Int) +
         (if (0 : Int) ∈ [(1 : Int)] then (if "L" = "L" then 1 else -1)
          else (if "L" = "L" then -1 else 1))) ∧
     0 ≤ (ssStepRun .circular ⟨4, some 0, 3, [1], 50⟩ ⟨0, 0, 0⟩ (.str "L")).1.agentLocation ∧
     (ssStepRun .circular ⟨4, some 0, 3, [1], 50⟩ ⟨0, 0, 0⟩ (.str "L")).1.agentLocation <
       SSCorridorCfg.corridorLength ⟨4, some 0, 3, [1], 50⟩) ∧
    (0 ≤ (ssReset ⟨4, some 0, 3, [1], 50⟩ none 5).agentLocation ∧
     (ssReset ⟨4, some 0, 3, [1], 50⟩ none 5).agentLocation <
       SSCorridorCfg.corridorLength ⟨4, some 0, 3, [1], 50⟩) :=
  step_moves_agent_by_geometry .circular ⟨4, some 0, 3, [1], 50⟩ ⟨0, 0, 0⟩ (.str "L") "L"
    (by decide) rfl (by decide) (by decide) none 5

theorem ssStepRun_counter (g : Geometry) (cfg : SSCorridorCfg) (st : SSState)
    (a : SSActionInput) (h : ssActionMem a) :
    (ssStepRun g cfg st a).1.stepCounter = st.stepCounter + 1 := by
  have hok := getActionStr_ok_of_mem h
  by_cases hs : st.agentLocation ∈ cfg.specialStates <;>
    simp [ssStepRun, ssStep, getAgentNewLocation, convertActionToMovement, hok, hs,
      Bind.bind, Except.bind, pure, Except.pure]

theorem ssStepRun_truncated (g : Geometry) (cfg : SSCorridorCfg) (st : SSState)
    (a : SSActionInput) (h : ssActionMem a) :
    (ssStepRun g cfg st a).2.map SSOut.truncated =
      .ok (decide (cfg.truncateTolerance ≤ st.stepCounter + 1)) := by
  have hok := getActionStr_ok_of_mem h
  by_cases hs : st.agentLocation ∈ cfg.specialStates <;>
    simp [ssStepRun, ssStep, getAgentNewLocation, convertActionToMovement, hok, hs,
      Bind.bind, Except.bind, pure, Except.pure, Except.map]

theorem ssRunSteps_counter (g : Geometry) (cfg : SSCorridorCfg)
    (acts : List SSActionInput) (st : SSState) (h : ∀ a ∈ acts, ssActionMem a) :
    (ssRunSteps g cfg st acts).stepCounter = st.stepCounter + acts.length := by
  induction acts generalizing st with
  | nil => simp [ssRunSteps]
  | cons a rest ih =>
      simp only [ssRunSteps, List.foldl_cons] at *
      rw [ih ((ssStepRun g cfg st a).1) (fun b hb => h b (by simp [hb])),
        ssStepRun_counter g cfg st a (h a (by simp))]
      simp only [List.length_cons]
      push_cast
      omega

theorem dcStepRun_counter (cfg : DCCfg) (s : DCState) (a : Int)
    (h : a = 0 ∨ a = 1 ∨ a = 2 ∨ a = 3) :
    (dcStepRun cfg s a).1.stepCount = s.stepCount + 1 := by
  rcases h with h | h | h | h <;> subst h <;>
    simp only [dcStepRun, dcStep] <;> norm_num <;> repeat' split <;> rfl

theorem dcStepRun_truncated (cfg : DCCfg) (s : DCState) (a : Int)
    (h : a = 0 ∨ a = 1 ∨ a = 2 ∨ a = 3) :
    (dcStepRun cfg s a).2.map DCOut.truncated =
      .ok (decide (cfg.maxSteps ≤ s.stepCount + 1)) := by
  rcases h with h | h | h | h <;> subst h <;>
    simp only [dcStepRun, dcStep] <;> norm_num <;> simp [Except.map]

theorem dcRunSteps_counter (cfg : DCCfg) (acts : List Int) (s : DCState)
    (h : ∀ a ∈ acts, a = 0 ∨ a = 1 ∨ a = 2 ∨ a = 3) :
    (dcRunSteps cfg s acts).stepCount = s.stepCount + acts.length := by
  induction acts generalizing s with
  | nil => simp [dcRunSteps]
  | cons a rest ih =>
      simp only [dcRunSteps, List.foldl_cons] at *
      rw [ih ((dcStepRun cfg s a).1) (fun b hb => h b (by simp [hb])),
        dcStepRun_counter cfg s a (h a (by simp))]
      simp only [List.length_cons]
      push_cast
      omega

/-- C7 (confirmed): in both kernels, with truncation limit L, the call made
k steps after a reset (for any valid action sequence, goal reached or not)
returns truncated exactly when k+1 is at least L: truncated is false on
every call before the L-th and true on the L-th, regardless of terminated. -/
theorem truncation_on_exact_limit
    (g : Geometry) (cfg : SSCorridorCfg) (seed : Option Nat) (draw : Nat)
    (acts : List SSActionInput) (hva : ∀ a ∈ acts, ssActionMem a)
    (k : Nat) (hk : k < acts.length)
    (dcfg : DCCfg) (dacts : List Int)
    (hvd : ∀ a ∈ dacts, a = 0 ∨ a = 1 ∨ a = 2 ∨ a = 3)
    (j : Nat) (hj : j < dacts.length) :
    ((ssStepRun g cfg (ssRunSteps g cfg (ssReset cfg seed draw) (acts.take k))
        (acts.get ⟨k, hk⟩)).2.map SSOut.truncated =
      .ok (decide (cfg.truncateTolerance ≤ (k : Int) + 1))) ∧
    ((dcStepRun dcfg (dcRunSteps dcfg (dcReset dcfg) (dacts.take j))
        (dacts.get ⟨j, hj⟩)).2.map DCOut.truncated =
      .ok (decide (dcfg.maxSteps ≤ (j : Int) + 1))) := by
  constructor
  · have hcnt : (ssRunSteps g cfg (ssReset cfg seed draw) (acts.take k)).stepCounter = (k : Int) := by
      rw [ssRunSteps_counter g cfg (acts.take k) _
        (fun b hb => hva b (List.take_subset k acts hb))]
      simp [ssReset, List.length_take]
      omega
    rw [ssStepRun_truncated g cfg _ _ (hva _ (acts.get_mem k hk)), hcnt]
  · have hcnt : (dcRunSteps dcfg (dcReset dcfg) (dacts.take j)).stepCount = (j : Int) := by
      rw [dcRunSteps_counter dcfg (dacts.take j) _
        (fun b hb => hvd b (List.take_subset j dacts hb))]
      simp [dcReset, List.length_take]
      omega
    rw [dcStepRun_truncated dcfg _ _ (hvd _ (dacts.get_mem j hj)), hcnt]

/-- Witness for C7: limit 2 in both kernels; the second call truncates and
the first does not (shown through the general k-th-call formula with k = 1,
where decide gives true, and the decide-false case follows from the same
theorem at k = 0 on a longer list). -/
theorem truncation_on_exact_limit_witness :
    ((ssStepRun .linear ⟨4, some 0, 3, [1], 2⟩
        (ssRunSteps .linear ⟨4, some 0, 3, [1], 2⟩ (ssReset ⟨4, some 0, 3, [1], 2⟩ none 0)
          ([SSActionInput.num 0, SSActionInput.num 0].take 1))
        ([SSActionInput.num 0, SSActionInput.num 0].get ⟨1, by decide⟩)).2.map SSOut.truncated =
      .ok (decide ((2 : Int) ≤ (1 : Nat) + 1))) ∧
    ((dcStepRun ⟨2, 5, 3⟩ (dcRunSteps ⟨2, 5, 3⟩ (dcReset ⟨2, 5, 3⟩) ([0, 0].take 1))
        ([(0 : Int), 0].get ⟨1, by decide⟩)).2.map DCOut.truncated =
      .ok (decide ((2 : Int) ≤ (1 : Nat) + 1))) :=
  truncation_on_exact_limit .linear ⟨4, some 0, 3, [1], 2⟩ none 0
    [SSActionInput.num 0, SSActionInput.num 0] (by decide) 1 (by decide)
    ⟨2, 5, 3⟩ [0, 0] (by decide) 1 (by decide)

theorem DoorState.toggle_toggle (d : DoorState) : d.toggle.toggle = d := by
  cases d <;> rfl

/-- C10 (confirmed): two consecutive Toggle steps return every grid cell
(both channels), the agent position and the agent direction to their values
before the first Toggle; only the step counter changes, increasing by 2. -/
theorem toggle_twice_restores (cfg : DCCfg) (s : DCState) :
    (∀ x y, (dcRunSteps cfg s [3, 3]).grid x y = s.grid x y) ∧
    (dcRunSteps cfg s [3, 3]).agentPos = s.agentPos ∧
    (dcRunSteps cfg s [3, 3]).agentDir = s.agentDir ∧
    (dcRunSteps cfg s [3, 3]).stepCount = s.stepCount + 2 := by
  by_cases hc : withGrid cfg (inFrontOfAgentCoord s.agentPos s.agentDir).1
      (inFrontOfAgentCoord s.agentPos s.agentDir).2 = true ∧
      (s.grid (inFrontOfAgentCoord s.agentPos s.agentDir).1
        (inFrontOfAgentCoord s.agentPos s.agentDir).2).obj = Object.door
  · constructor
    · intro x y
      simp only [dcRunSteps, List.foldl_cons, List.foldl_nil, dcStepRun, dcStep]
      norm_num
      simp [hc]
      by_cases hxy : x = (inFrontOfAgentCoord s.agentPos s.agentDir).1 ∧
          y = (inFrontOfAgentCoord s.agentPos s.agentDir).2 <;>
        simp [hxy, DoorState.toggle_toggle]
    · refine ⟨?_, ?_, ?_⟩ <;>
        simp only [dcRunSteps, List.foldl_cons, List.foldl_nil, dcStepRun, dcStep] <;>
        norm_num <;> simp [hc] <;> try omega
  · refine ⟨?_, ?_, ?_, ?_⟩ <;>
      simp only [dcRunSteps, List.foldl_cons, List.foldl_nil, dcStepRun, dcStep] <;>
      norm_num <;> simp [hc] <;> try omega

/-- C8 counterexample: in the default door corridor, after turn-right,
toggle, and a successful MoveForward (the agent moves from (1,1) to (2,1)),
the grid's Agent marker is still at the old cell (1,1) and has not appeared
at the new cell (2,1). -/
theorem agent_marker_left_behind_after_forward :
    (dcRunActions ⟨270, 5, 3⟩ [1, 3]).agentPos = (1, 1) ∧
    (dcRunActions ⟨270, 5, 3⟩ [1, 3, 2]).agentPos = (2, 1) ∧
    ((dcRunActions ⟨270, 5, 3⟩ [1, 3, 2]).grid 1 1).obj = Object.agent ∧
    ¬ ((dcRunActions ⟨270, 5, 3⟩ [1, 3, 2]).grid 2 1).obj = Object.agent := by
  decide

/-- C8 (corrected): the ObjectKind channel of every grid cell is unchanged
by every step call, including a successful MoveForward: the Agent marker
stamped at generation never moves (the live agent position is tracked only
in agent_pos; Toggle touches only the door-state channel). -/
theorem object_channel_static (cfg : DCCfg) (s : DCState) (a : Int) (x y : Int) :
    ((dcStepRun cfg s a).1.grid x y).obj = (s.grid x y).obj := by
  by_cases hv : a = 0 ∨ a = 1 ∨ a = 2 ∨ a = 3
  · rcases hv with h | h | h | h <;> subst h <;>
      simp only [dcStepRun, dcStep] <;> norm_num
    · split <;> rfl
    · split
      · by_cases hxy : x = (inFrontOfAgentCoord s.agentPos s.agentDir).1 ∧
            y = (inFrontOfAgentCoord s.agentPos s.agentDir).2 <;> simp [hxy]
      · rfl
  · simp [dcStepRun, dcStep, hv]

theorem getD_set_of_lt (l : List Char) (m n : Nat) (c d : Char) (h : n < l.length) :
    (l.set m c).getD n d = if m = n then c else l.getD n d := by
  simp only [List.getD_eq_getElem?_getD, List.getElem?_set]
  by_cases hmn : m = n
  · subst hmn
    simp [h]
  · simp [hmn]

theorem foldl_set_length (l : List Int) (b : List Char) :
    (l.foldl (fun bb s => bb.set s.toNat '^') b).length = b.length := by
  induction l generalizing b with
  | nil => rfl
  | cons a rest ih => simp [List.foldl_cons, ih, List.length_set]

theorem foldl_set_getElem? (l : List Int) (b : List Char) (i : Nat) :
    (l.foldl (fun bb s => bb.set s.toNat '^') b)[i]? =
      if (∃ s ∈ l, s.toNat = i) ∧ i < b.length then some '^' else b[i]? := by
  induction l generalizing b with
  | nil => simp
  | cons a rest ih =>
      simp only [List.foldl_cons]
      rw [ih, List.getElem?_set, List.length_set]
      by_cases h2 : i < b.length
      · by_cases h1 : ∃ s ∈ rest, s.toNat = i <;>
          by_cases h3 : a.toNat = i <;> simp_all
      · have hlt : ¬ i < b.length := by omega
        have hb : b[i]? = none := List.getElem?_eq_none (by omega)
        simp [hlt, hb]
        omega


theorem renderAnsiCells_length (cfg : SSCorridorCfg) (st : SSState) :
    (renderAnsiCells cfg st).length = cfg.corridorLength.toNat := by
  simp [renderAnsiCells, List.length_set, foldl_set_length]

theorem renderAnsiCells_getElem? (cfg : SSCorridorCfg) (st : SSState)
    (hstart : 0 ≤ st.currStartState ∧ st.currStartState < cfg.corridorLength)
    (hgoal : 0 ≤ cfg.goalState ∧ cfg.goalState < cfg.corridorLength)
    (hspec : ∀ s ∈ cfg.specialStates, 0 ≤ s ∧ s < cfg.corridorLength)
    (hagent : 0 ≤ st.agentLocation ∧ st.agentLocation < cfg.corridorLength)
    (i : Nat) :
    (renderAnsiCells cfg st)[i]? =
      if i < cfg.corridorLength.toNat then some (amendedCellChar cfg st i) else none := by
  have hmem : (∃ s ∈ cfg.specialStates, s.toNat = i) ↔ ((i : Int) ∈ cfg.specialStates) := by
    constructor
    · rintro ⟨s, hs, hst⟩
      have := hspec s hs
      have hsi : s = (i : Int) := by omega
      rwa [hsi] at hs
    · intro h
      exact ⟨(i : Int), h, by omega⟩
  simp only [renderAnsiCells]
  rw [List.getElem?_set, foldl_set_getElem?, List.getElem?_set, List.getElem?_set]
  simp only [foldl_set_length, List.length_set, List.length_replicate]
  by_cases hi : i < cfg.corridorLength.toNat
  · rw [if_pos hi]
    simp only [amendedCellChar]
    by_cases h1 : st.agentLocation = (i : Int)
    · have e1 : st.agentLocation.toNat = i := by omega
      have l1 : st.agentLocation.toNat < cfg.corridorLength.toNat := by omega
      simp [e1, l1, h1]
      omega
    · have e1 : ¬ st.agentLocation.toNat = i := by omega
      rw [if_neg e1, if_neg h1]
      by_cases h2 : (i : Int) ∈ cfg.specialStates
      · rw [if_pos ⟨hmem.mpr h2, hi⟩, if_pos h2]
      · rw [if_neg (fun hx => h2 (hmem.mp hx.1)), if_neg h2]
        by_cases h3 : cfg.goalState = (i : Int)
        · have e3 : cfg.goalState.toNat = i := by omega
          have l3 : cfg.goalState.toNat < cfg.corridorLength.toNat := by omega
          simp [e3, l3, h3, h2]
          omega
        · have e3 : ¬ cfg.goalState.toNat = i := by omega
          rw [if_neg e3, if_neg h3]
          by_cases h4 : st.currStartState = (i : Int)
          · have e4 : st.currStartState.toNat = i := by omega
            have l4 : st.currStartState.toNat < cfg.corridorLength.toNat := by omega
            simp [e4, l4, h4, h3, h2]
            omega
          · have e4 : ¬ st.currStartState.toNat = i := by omega
            rw [if_neg e4, if_neg h4, List.getElem?_replicate, if_pos hi]
  · rw [if_neg hi]
    have e1 : ¬ st.agentLocation.toNat = i := by omega
    have e3 : ¬ cfg.goalState.toNat = i := by omega
    have e4 : ¬ st.currStartState.toNat = i := by omega
    rw [if_neg e1, if_neg (by rintro ⟨-, h⟩; omega), if_neg e3, if_neg e4,
      List.getElem?_replicate, if_neg hi]

theorem renderAnsiCells_eq_map (cfg : SSCorridorCfg) (st : SSState)
    (hstart : 0 ≤ st.currStartState ∧ st.currStartState < cfg.corridorLength)
    (hgoal : 0 ≤ cfg.goalState ∧ cfg.goalState < cfg.corridorLength)
    (hspec : ∀ s ∈ cfg.specialStates, 0 ≤ s ∧ s < cfg.corridorLength)
    (hagent : 0 ≤ st.agentLocation ∧ st.agentLocation < cfg.corridorLength) :
    renderAnsiCells cfg st =
      (List.range cfg.corridorLength.toNat).map (amendedCellChar cfg st) := by
  apply List.ext_getElem?
  intro i
  rw [renderAnsiCells_getElem? cfg st hstart hgoal hspec hagent i]
  by_cases hi : i < cfg.corridorLength.toNat
  · simp [hi, List.getElem?_map, List.getElem?_range]
  · rw [if_neg hi, List.getElem?_map, List.getElem?_eq_none (by simp; omega)]
    rfl


/-- C9 counterexample: with length 4, start 1, goal 3, special positions {1}
and the agent at 2 (reached from reset by one L step, the special start
inverting it to +1, then clamped—here plain +1), the code renders the start
cell as a caret where the claim requires S: render priority in the source is
agent, special, goal, start, not agent, start, goal, special. -/
theorem ansi_render_start_cell_not_S :
    ((ssStepRun .linear ⟨4, some 1, 3, [1], 50⟩
        (ssReset ⟨4, some 1, 3, [1], 50⟩ none 0) (.str "L")).1.agentLocation = 2) ∧
    renderFrameAnsiMode ⟨4, some 1, 3, [1], 50⟩
      (ssStepRun .linear ⟨4, some 1, 3, [1], 50⟩
        (ssReset ⟨4, some 1, 3, [1], 50⟩ none 0) (.str "L")).1 = "[ |^|*|G]" ∧
    claimRenderAnsi ⟨4, some 1, 3, [1], 50⟩
      (ssStepRun .linear ⟨4, some 1, 3, [1], 50⟩
        (ssReset ⟨4, some 1, 3, [1], 50⟩ none 0) (.str "L")).1 = "[ |S|*|G]" ∧
    ¬ ("[ |^|*|G]" = "[ |S|*|G]") := by
  decide

/-- C9 (corrected): the text render is the length cells joined by a bar and
wrapped in brackets, where each cell is the agent star first, else a
special-position caret, else the goal G, else the start S, else a space
(the caret beats the start and goal marks, unlike the claimed priority);
the spec's example configuration still renders exactly as claimed. -/
theorem ansi_render_characterised (cfg : SSCorridorCfg) (st : SSState)
    (hstart : 0 ≤ st.currStartState ∧ st.currStartState < cfg.corridorLength)
    (hgoal : 0 ≤ cfg.goalState ∧ cfg.goalState < cfg.corridorLength)
    (hspec : ∀ s ∈ cfg.specialStates, 0 ≤ s ∧ s < cfg.corridorLength)
    (hagent : 0 ≤ st.agentLocation ∧ st.agentLocation < cfg.corridorLength) :
    renderFrameAnsiMode cfg st =
      "[" ++ String.intercalate "|"
        ((List.range cfg.corridorLength.toNat).map
          (fun i => String.mk [amendedCellChar cfg st i])) ++ "]" ∧
    renderFrameAnsiMode ⟨6, some 4, 1, [2, 4], 50⟩ ⟨4, 4, 0⟩ = "[ |G|^| |*| ]" := by
  constructor
  · unfold renderFrameAnsiMode
    rw [renderAnsiCells_eq_map cfg st hstart hgoal hspec hagent, List.map_map]
    rfl
  · decide

/-- Witness for C9 at the spec's example configuration. -/
theorem ansi_render_characterised_witness :
    (renderFrameAnsiMode ⟨6, some 4, 1, [2, 4], 50⟩ ⟨4, 4, 0⟩ =
      "[" ++ String.intercalate "|"
        ((List.range (SSCorridorCfg.corridorLength ⟨6, some 4, 1, [2, 4], 50⟩).toNat).map
          (fun i => String.mk [amendedCellChar ⟨6, some 4, 1, [2, 4], 50⟩ ⟨4, 4, 0⟩ i])) ++ "]") ∧
    renderFrameAnsiMode ⟨6, some 4, 1, [2, 4], 50⟩ ⟨4, 4, 0⟩ = "[ |G|^| |*| ]" :=
  ansi_render_characterised ⟨6, some 4, 1, [2, 4], 50⟩ ⟨4, 4, 0⟩
    (by decide) (by decide) (by decide) (by decide)

theorem windowApply_congr (cfg : DCCfg) (s : DCState) {x1 y1 x2 y2 : Int}
    (hx : x1 = x2) (hy : y1 = y2) :
    (if withGrid cfg x1 y1 then s.grid x1 y1 else unseenCell) =
    (if withGrid cfg x2 y2 then s.grid x2 y2 else unseenCell) := by
  subst hx
  subst hy
  rfl

/-- C2 (confirmed): the pre-occlusion field of view equals the view window
at the facing-specific origin (out-of-bounds cells unseen) rotated by
direction-index + 1 quarter turns for every facing (for Up the four quarter
turns are the identity, matching the code's skipped rotation), and in the
rotated array the cell k steps along the agent's forward direction sits in
the centre column at row view_size - 1 - k: the forward direction is the top
of the array, the agent anchored at the bottom centre. -/
theorem agent_pov_rotation (cfg : DCCfg) (s : DCState)
    (hodd : cfg.agentViewSize % 2 = 1) (h3 : 3 ≤ cfg.agentViewSize) :
    (∀ j i, j < cfg.agentViewSize → i < cfg.agentViewSize →
      getAgentPovPre cfg s j i =
        rot90Pow cfg.agentViewSize (s.agentDir.idx + 1) (windowPov cfg s) j i) ∧
    (∀ k : Nat, k < cfg.agentViewSize →
      getAgentPovPre cfg s (cfg.agentViewSize - 1 - k) (cfg.agentViewSize / 2) =
        (if withGrid cfg (s.agentPos.1 + (k : Int) * (inFrontOfAgentCoord (0, 0) s.agentDir).1)
            (s.agentPos.2 + (k : Int) * (inFrontOfAgentCoord (0, 0) s.agentDir).2) then
          s.grid (s.agentPos.1 + (k : Int) * (inFrontOfAgentCoord (0, 0) s.agentDir).1)
            (s.agentPos.2 + (k : Int) * (inFrontOfAgentCoord (0, 0) s.agentDir).2)
        else unseenCell)) := by
  constructor
  · intro j i hj hi
    cases hd : s.agentDir
    case right => simp [getAgentPovPre, hd]
    case down => simp [getAgentPovPre, hd]
    case left => simp [getAgentPovPre, hd]
    case up =>
      simp only [getAgentPovPre, hd, AgentDirection.idx]
      norm_num
      simp only [rot90Pow, rot90]
      have e1 : cfg.agentViewSize - 1 - (cfg.agentViewSize - 1 - j) = j := by omega
      have e2 : cfg.agentViewSize - 1 - (cfg.agentViewSize - 1 - i) = i := by omega
      rw [e1, e2]
  · intro k hk
    cases hd : s.agentDir
    case right =>
      have hv1 : (getViewExts cfg s).1 = s.agentPos.1 := by simp [getViewExts, hd]
      have hv2 : (getViewExts cfg s).2 = s.agentPos.2 - ((cfg.agentViewSize / 2 : Nat) : Int) := by simp [getViewExts, hd]
      simp only [getAgentPovPre, hd, AgentDirection.idx, inFrontOfAgentCoord]
      norm_num
      simp only [rot90Pow, rot90]
      exact windowApply_congr cfg s (by omega) (by omega)
    case down =>
      have hv1 : (getViewExts cfg s).1 = s.agentPos.1 - ((cfg.agentViewSize / 2 : Nat) : Int) := by simp [getViewExts, hd]
      have hv2 : (getViewExts cfg s).2 = s.agentPos.2 := by simp [getViewExts, hd]
      simp only [getAgentPovPre, hd, AgentDirection.idx, inFrontOfAgentCoord]
      norm_num
      simp only [rot90Pow, rot90]
      exact windowApply_congr cfg s (by omega) (by omega)
    case left =>
      have hv1 : (getViewExts cfg s).1 = s.agentPos.1 - (cfg.agentViewSize : Int) + 1 := by simp [getViewExts, hd]
      have hv2 : (getViewExts cfg s).2 = s.agentPos.2 - ((cfg.agentViewSize / 2 : Nat) : Int) := by simp [getViewExts, hd]
      simp only [getAgentPovPre, hd, AgentDirection.idx, inFrontOfAgentCoord]
      norm_num
      simp only [rot90Pow, rot90]
      exact windowApply_congr cfg s (by omega) (by omega)
    case up =>
      have hv1 : (getViewExts cfg s).1 = s.agentPos.1 - ((cfg.agentViewSize / 2 : Nat) : Int) := by simp [getViewExts, hd]
      have hv2 : (getViewExts cfg s).2 = s.agentPos.2 - (cfg.agentViewSize : Int) + 1 := by simp [getViewExts, hd]
      simp only [getAgentPovPre, hd, AgentDirection.idx, inFrontOfAgentCoord]
      norm_num
      exact windowApply_congr cfg s (by omega) (by omega)

/-- Witness for C2 at the default door corridor just after reset. -/
theorem agent_pov_rotation_witness :
    (∀ j i, j < DCCfg.agentViewSize ⟨270, 5, 3⟩ → i < DCCfg.agentViewSize ⟨270, 5, 3⟩ →
      getAgentPovPre ⟨270, 5, 3⟩ (dcReset ⟨270, 5, 3⟩) j i =
        rot90Pow (DCCfg.agentViewSize ⟨270, 5, 3⟩)
          ((dcReset ⟨270, 5, 3⟩).agentDir.idx + 1)
          (windowPov ⟨270, 5, 3⟩ (dcReset ⟨270, 5, 3⟩)) j i) ∧
    (∀ k : Nat, k < DCCfg.agentViewSize ⟨270, 5, 3⟩ →
      getAgentPovPre ⟨270, 5, 3⟩ (dcReset ⟨270, 5, 3⟩)
          (DCCfg.agentViewSize ⟨270, 5, 3⟩ - 1 - k) (DCCfg.agentViewSize ⟨270, 5, 3⟩ / 2) =
        (if withGrid ⟨270, 5, 3⟩
            ((dcReset ⟨270, 5, 3⟩).agentPos.1 +
              (k : Int) * (inFrontOfAgentCoord (0, 0) (dcReset ⟨270, 5, 3⟩).agentDir).1)
            ((dcReset ⟨270, 5, 3⟩).agentPos.2 +
              (k : Int) * (inFrontOfAgentCoord (0, 0) (dcReset ⟨270, 5, 3⟩).agentDir).2) then
          (dcReset ⟨270, 5, 3⟩).grid
            ((dcReset ⟨270, 5, 3⟩).agentPos.1 +
              (k : Int) * (inFrontOfAgentCoord (0, 0) (dcReset ⟨270, 5, 3⟩).agentDir).1)
            ((dcReset ⟨270, 5, 3⟩).agentPos.2 +
              (k : Int) * (inFrontOfAgentCoord (0, 0) (dcReset ⟨270, 5, 3⟩).agentDir).2)
        else unseenCell)) :=
  agent_pov_rotation ⟨270, 5, 3⟩ (dcReset ⟨270, 5, 3⟩) (by decide) (by decide)

theorem occludeLoop_countdown_first (pov : Nat → Nat → Cell) (c : Nat) (ystar : Nat)
    (h1 : 1 ≤ ystar) :
    ∀ m, ystar ≤ m →
      (∀ y, ystar < y → y ≤ m → pov y c ≠ ⟨.door, .closed⟩) →
      pov ystar c = ⟨.door, .closed⟩ →
      ∀ r i, occludeLoop pov c (countdown m) r i =
        if r < ystar then unseenCell else pov r i := by
  intro m
  induction m with
  | zero =>
      intro hm
      omega
  | succ m ih =>
      intro hm hfirst hdoor r i
      simp only [countdown, occludeLoop]
      by_cases he : ystar = m + 1
      · subst he
        rw [if_pos hdoor]
      · have hne : pov (m + 1) c ≠ ⟨.door, .closed⟩ := hfirst (m + 1) (by omega) (by omega)
        rw [if_neg hne]
        exact ih (by omega) (fun y hy1 hy2 => hfirst y hy1 (by omega)) hdoor r i

/-- C3 (confirmed): the occlusion pass scans the rotated view's centre
column from the cell one in front of the agent (row view_size - 2) toward
the far edge; at the first closed door every cell strictly farther (every
row above it, in all columns) is overwritten with the unseen value and the
scan stops, leaving the door row and everything nearer untouched. In the
default 5-cell corridor, after one turn-right the agent faces the closed
door one cell ahead and the whole far row of its view is unseen; after a
Toggle opens that door the next observation reveals those cells. -/
theorem pov_occlusion (cfg : DCCfg) (s : DCState) (ystar : Nat)
    (h1 : 1 ≤ ystar) (h2 : ystar ≤ cfg.agentViewSize - 2)
    (hdoor : getAgentPovPre cfg s ystar (cfg.agentViewSize / 2) = ⟨.door, .closed⟩)
    (hfirst : ∀ y, ystar < y → y ≤ cfg.agentViewSize - 2 →
      getAgentPovPre cfg s y (cfg.agentViewSize / 2) ≠ ⟨.door, .closed⟩) :
    (∀ r i, getAgentPov cfg s r i =
      if r < ystar then unseenCell else getAgentPovPre cfg s r i) ∧
    ((∀ i, i < 3 → getAgentPov ⟨270, 5, 3⟩ (dcRunActions ⟨270, 5, 3⟩ [1]) 0 i = unseenCell) ∧
     (dcRunActions ⟨270, 5, 3⟩ [1]).agentDir = .right ∧
     (dcRunActions ⟨270, 5, 3⟩ [1]).agentPos = (1, 1) ∧
     (dcRunActions ⟨270, 5, 3⟩ [1]).grid 2 1 = ⟨.door, .closed⟩ ∧
     getAgentPovPre ⟨270, 5, 3⟩ (dcRunActions ⟨270, 5, 3⟩ [1]) 1 1 = ⟨.door, .closed⟩ ∧
     (dcRunActions ⟨270, 5, 3⟩ [1, 3]).grid 2 1 = ⟨.door, .opened⟩ ∧
     getAgentPov ⟨270, 5, 3⟩ (dcRunActions ⟨270, 5, 3⟩ [1, 3]) 0 0 = ⟨.wall, .opened⟩ ∧
     getAgentPov ⟨270, 5, 3⟩ (dcRunActions ⟨270, 5, 3⟩ [1, 3]) 0 1 = ⟨.door, .closed⟩ ∧
     getAgentPov ⟨270, 5, 3⟩ (dcRunActions ⟨270, 5, 3⟩ [1, 3]) 0 2 = ⟨.wall, .opened⟩) := by
  constructor
  · exact occludeLoop_countdown_first (getAgentPovPre cfg s) (cfg.agentViewSize / 2) ystar h1
      (cfg.agentViewSize - 2) h2 hfirst hdoor
  · decide

/-- Witness for C3: the blocked-view state of the concrete scenario, with
the closed door one row in front (ystar = 1) occluding the far row. -/
theorem pov_occlusion_witness :
    (∀ r i, getAgentPov ⟨270, 5, 3⟩ (dcRunActions ⟨270, 5, 3⟩ [1]) r i =
      if r < 1 then unseenCell
      else getAgentPovPre ⟨270, 5, 3⟩ (dcRunActions ⟨270, 5, 3⟩ [1]) r i) ∧
    ((∀ i, i < 3 → getAgentPov ⟨270, 5, 3⟩ (dcRunActions ⟨270, 5, 3⟩ [1]) 0 i = unseenCell) ∧
     (dcRunActions ⟨270, 5, 3⟩ [1]).agentDir = .right ∧
     (dcRunActions ⟨270, 5, 3⟩ [1]).agentPos = (1, 1) ∧
     (dcRunActions ⟨270, 5, 3⟩ [1]).grid 2 1 = ⟨.door, .closed⟩ ∧
     getAgentPovPre ⟨270, 5, 3⟩ (dcRunActions ⟨270, 5, 3⟩ [1]) 1 1 = ⟨.door, .closed⟩ ∧
     (dcRunActions ⟨270, 5, 3⟩ [1, 3]).grid 2 1 = ⟨.door, .opened⟩ ∧
     getAgentPov ⟨270, 5, 3⟩ (dcRunActions ⟨270, 5, 3⟩ [1, 3]) 0 0 = ⟨.wall, .opened⟩ ∧
     getAgentPov ⟨270, 5, 3⟩ (dcRunActions ⟨270, 5, 3⟩ [1, 3]) 0 1 = ⟨.door, .closed⟩ ∧
     getAgentPov ⟨270, 5, 3⟩ (dcRunActions ⟨270, 5, 3⟩ [1, 3]) 0 2 = ⟨.wall, .opened⟩) :=
  pov_occlusion ⟨270, 5, 3⟩ (dcRunActions ⟨270, 5, 3⟩ [1]) 1 (by decide) (by decide)
    (by decide)
    (fun y hy1 hy2 => by
      have h3 : DCCfg.agentViewSize ⟨270, 5, 3⟩ = 3 := rfl
      omega)

end CorridorGrid
